import Mathlib

/-!
Verification of the response-envelope and typed-extraction logic of the
rust-asana client library (`src/schema/response.rs`, `src/schema/mod.rs`,
`src/api/mod.rs`), as a shallow embedding in Lean 4.

JSON values are modelled by the inductive `Asana.Json`.  Serde's generic
deserialization `serde_json::from_value::<T>` is modelled by an arbitrary
decoder `Json → Option T` (the `Result` error payload is discarded by every
call site in the source, so `Option` captures exactly what the code uses);
`from_value::<Vec<T>>` is the serde-derived list decoder `decodeVec`.
Concrete decoders for the repository's `Error` and `UserCompact` structs
follow the serde `derive(Deserialize)` map semantics of those structs.
-/

namespace Asana

/-- A JSON value (`serde_json::Value`): null, boolean, number, string,
array, or object (an ordered list of key/value entries, as parsed). -/
inductive Json where
  | null : Json
  | bool (b : Bool) : Json
  | num (n : Int) : Json
  | str (s : String) : Json
  | arr (xs : List Json) : Json
  | obj (fields : List (String × Json)) : Json
deriving Repr

/-- `schema::Error` from `src/schema/mod.rs`: three independently optional
string fields `help`, `message`, `phrase`. -/
structure Error where
  help : Option String
  message : Option String
  phrase : Option String
deriving Repr, DecidableEq

/-- `schema::Response` from `src/schema/response.rs`: the envelope with a
`data` JSON value (defaulting to null) and an `errors` list (defaulting to
empty). -/
structure Response where
  data : Json
  errors : List Error
deriving Repr

/-- Serde-derived deserialization of `Vec<T>` from a JSON value: succeeds
exactly on an array whose every element decodes as `T`, in order. -/
def decodeVec {T : Type} (dec : Json → Option T) : Json → Option (List T)
  | Json.arr xs => xs.mapM dec
  | _ => none

/-- `Response::into::<T>` (consuming): if `errors` is non-empty return them
as the failure; otherwise deserialize `data` as `T`, discarding the
deserialization error (an empty error list) on mismatch. -/
def Response.into {T : Type} (dec : Json → Option T) (r : Response) :
    Except (List Error) T :=
  if r.errors.length > 0 then
    Except.error r.errors
  else
    match dec r.data with
    | some v => Except.ok v
    | none => Except.error []

/-- `Response::value::<T>` (borrowing): deserialize a clone of `data` as a
single `T`, discarding the failure cause. -/
def Response.value {T : Type} (dec : Json → Option T) (r : Response) :
    Option T :=
  dec r.data

/-- `Response::errors` (borrowing accessor; named `getErrors` here because
the structure field projection already takes the name `errors`): clone and
return the error list when non-empty, else `None`. -/
def Response.getErrors (r : Response) : Option (List Error) :=
  if r.errors.length > 0 then some r.errors else none

/-- `Response::values::<T>` (borrowing): first try `value::<T>` and wrap a
success in a one-element vector; otherwise try `data` as a `Vec<T>`. -/
def Response.values {T : Type} (dec : Json → Option T) (r : Response) :
    Option (List T) :=
  match Response.value dec r with
  | some v => some [v]
  | none => decodeVec dec r.data

/-- Serde deserialization of `String` from a JSON value: only a JSON
string succeeds. -/
def decodeString : Json → Option String
  | Json.str s => some s
  | _ => none

/-- Serde deserialization of `Option<String>` from a JSON value: null
gives `None`, a JSON string gives `Some`, anything else fails. -/
def decodeOptString : Json → Option (Option String)
  | Json.null => some none
  | Json.str s => some (some s)
  | _ => none

/-- The map half of the serde-derived `schema::Error` deserializer
(its `visit_map`): entries are consumed in textual order, a repeated
known field is a duplicate-field error, unknown fields are skipped, and
a field never seen defaults to `None` (serde's rule for missing `Option`
fields). -/
def readErrorFields : List (String × Json) → Option (Option String) →
    Option (Option String) → Option (Option String) → Option Error
  | [], h, m, p => some ⟨h.getD none, m.getD none, p.getD none⟩
  | (k, v) :: rest, h, m, p =>
    if k = "help" then
      match h with
      | some _ => none
      | none => (decodeOptString v).bind fun s =>
          readErrorFields rest (some s) m p
    else if k = "message" then
      match m with
      | some _ => none
      | none => (decodeOptString v).bind fun s =>
          readErrorFields rest h (some s) p
    else if k = "phrase" then
      match p with
      | some _ => none
      | none => (decodeOptString v).bind fun s =>
          readErrorFields rest h m (some s)
    else readErrorFields rest h m p

/-- Serde-derived deserialization of `schema::Error`: an object goes
through `visit_map`; serde_json also deserializes structs positionally
from JSON arrays of their fields in declaration order (`visit_seq`), so a
three-element array whose entries decode as optional strings succeeds
too (the fields have no `serde(default)`, so shorter arrays fail, and
serde_json rejects longer ones); anything else fails. -/
def decodeError : Json → Option Error
  | Json.obj fields => readErrorFields fields none none none
  | Json.arr [h, m, p] => do
    let help ← decodeOptString h
    let message ← decodeOptString m
    let phrase ← decodeOptString p
    pure ⟨help, message, phrase⟩
  | _ => none

/-- The map half of the serde-derived `Response` deserializer: entries in
textual order, a duplicate `data` or `errors` field is a duplicate-field
error, unknown fields are skipped; afterwards `#[serde(default)]` fills a
missing `data` with JSON null and a missing `errors` with the empty
list. -/
def readResponseFields : List (String × Json) → Option Json →
    Option (List Error) → Option Response
  | [], d, e => some ⟨d.getD Json.null, e.getD []⟩
  | (k, v) :: rest, d, e =>
    if k = "data" then
      match d with
      | some _ => none
      | none => readResponseFields rest (some v) e
    else if k = "errors" then
      match e with
      | some _ => none
      | none =>
        match decodeVec decodeError v with
        | some es => readResponseFields rest d (some es)
        | none => none
    else readResponseFields rest d e

/-- `serde_json::from_str::<Response>` on a JSON text, modelled on the
text's parse tree (object entries kept in textual order, duplicates
included): an object goes through `visit_map`; an array of at most two
elements is the positional `visit_seq` form, where missing trailing
fields take their `serde(default)` and a present second element must be
a `Vec<schema::Error>`; any other value fails. -/
def decodeResponse : Json → Option Response
  | Json.obj fields => readResponseFields fields none none
  | Json.arr [] => some ⟨Json.null, []⟩
  | Json.arr [d] => some ⟨d, []⟩
  | Json.arr [d, e] => (decodeVec decodeError e).map fun es => ⟨d, es⟩
  | _ => none

/-- `schema::UserCompact`: `gid`, `resource_type`, `name`, all required
strings. -/
structure UserCompact where
  gid : String
  resource_type : String
  name : String
deriving Repr, DecidableEq

/-- The map half of the serde-derived `schema::UserCompact` deserializer:
duplicate known fields are rejected, unknown fields are skipped, and at
the end every field must have been seen (required `String` fields have no
default). -/
def readUserFields : List (String × Json) → Option String →
    Option String → Option String → Option UserCompact
  | [], g, r, n =>
    match g, r, n with
    | some g, some r, some n => some ⟨g, r, n⟩
    | _, _, _ => none
  | (k, v) :: rest, g, r, n =>
    if k = "gid" then
      match g with
      | some _ => none
      | none => (decodeString v).bind fun s =>
          readUserFields rest (some s) r n
    else if k = "resource_type" then
      match r with
      | some _ => none
      | none => (decodeString v).bind fun s =>
          readUserFields rest g (some s) n
    else if k = "name" then
      match n with
      | some _ => none
      | none => (decodeString v).bind fun s =>
          readUserFields rest g r (some s)
    else readUserFields rest g r n

/-- Serde-derived deserialization of `schema::UserCompact`: an object
via `visit_map`, or the positional `visit_seq` form — exactly three
JSON strings, one per required field in declaration order. -/
def decodeUserCompact : Json → Option UserCompact
  | Json.obj fields => readUserFields fields none none none
  | Json.arr [g, r, n] => do
    let gid ← decodeString g
    let rt ← decodeString r
    let name ← decodeString n
    pure ⟨gid, rt, name⟩
  | _ => none

/-- The single-user payload used throughout the repository's tests. -/
def gregJson : Json :=
  Json.obj [("gid", Json.str "12345"), ("resource_type", Json.str "user"),
    ("name", Json.str "Greg Sanchez")]

/-- `UserCompact` value decoded from `gregJson`. -/
def greg : UserCompact := ⟨"12345", "user", "Greg Sanchez"⟩

/-- Second user payload from the repository's vector test. -/
def lukeJson : Json :=
  Json.obj [("gid", Json.str "54321"), ("resource_type", Json.str "user"),
    ("name", Json.str "Luke Lastname")]

/-- `UserCompact` value decoded from `lukeJson`. -/
def luke : UserCompact := ⟨"54321", "user", "Luke Lastname"⟩

/-- The error value from the repository's error-response test. -/
def sampleError : Error :=
  ⟨some "see the docs", some "project: Missing input",
    some "6 sad squid snuggle softly"⟩

example : decodeUserCompact gregJson = some greg := by decide
example : decodeUserCompact lukeJson = some luke := by decide
example : decodeUserCompact
    (Json.arr [Json.str "12345", Json.str "user", Json.str "Greg Sanchez"]) =
      some greg := by decide
example : decodeError (Json.arr [Json.null, Json.null, Json.null]) =
    some ⟨none, none, none⟩ := by decide
example : decodeResponse
    (Json.obj [("data", Json.num 1), ("data", Json.num 2)]) = none := rfl

/-- C1: if the envelope's error list is non-empty, the consuming
`Response::into::<T>` returns exactly that error list; the decoder is never
consulted and the result is identical for every possible `data` value. -/
theorem into_short_circuits_on_errors {T : Type} (dec : Json → Option T)
    (errs : List Error) (d : Json) (h : errs ≠ []) :
    Response.into dec ⟨d, errs⟩ = Except.error errs := by
  have hl : (⟨d, errs⟩ : Response).errors.length > 0 :=
    List.length_pos.mpr h
  simp [Response.into, hl]

/-- Witness for C1 at the test error response (with arbitrary data). -/
theorem into_short_circuits_on_errors_witness :
    Response.into decodeUserCompact ⟨Json.null, [sampleError]⟩ =
      Except.error [sampleError] :=
  into_short_circuits_on_errors decodeUserCompact [sampleError] Json.null
    (by simp)

/-- C2: when `data` deserializes as a single `T`, `Response::values::<T>`
returns the one-element vector of that value — the single-`T` attempt wins
regardless of whether `data` would also parse as a vector. -/
theorem values_single_object {T : Type} (dec : Json → Option T)
    (r : Response) (v : T) (h : dec r.data = some v) :
    Response.values dec r = some [v] := by
  simp [Response.values, Response.value, h]

/-- Witness for C2 at the repository's single-user test payload. -/
theorem values_single_object_witness :
    Response.values decodeUserCompact ⟨gregJson, []⟩ = some [greg] :=
  values_single_object decodeUserCompact ⟨gregJson, []⟩ greg (by decide)

/-- C3: with no reported errors and `data` failing to deserialize as `T`,
the consuming `into` returns the empty error list (the cause is discarded)
and the borrowing `value` returns `None`. -/
theorem mismatch_is_lossy {T : Type} (dec : Json → Option T)
    (r : Response) (he : r.errors = []) (hd : dec r.data = none) :
    Response.into dec r = Except.error [] ∧
      Response.value dec r = none := by
  constructor
  · simp [Response.into, he, hd]
  · simp [Response.value, hd]

/-- Witness for C3: a string `data` does not decode as `UserCompact`. -/
theorem mismatch_is_lossy_witness :
    Response.into decodeUserCompact ⟨Json.str "oops", []⟩ =
        Except.error [] ∧
      Response.value decodeUserCompact ⟨Json.str "oops", []⟩ = none :=
  mismatch_is_lossy decodeUserCompact ⟨Json.str "oops", []⟩ rfl rfl

/-- C4: when `data` is the empty JSON array and the empty array itself
does not decode as a single `T`, `Response::values::<T>` returns the
present empty vector.  The hypothesis is weaker than the claim's ("no
JSON array decodes as `T`"), so the theorem implies the claim, and unlike
the claim's hypothesis it is satisfied by the program's struct decoders:
their positional array form requires their fields, so the empty array is
rejected even though serde_json does decode structs from suitable
non-empty arrays. -/
theorem values_empty_array {T : Type} (dec : Json → Option T)
    (r : Response) (hd : r.data = Json.arr [])
    (h : dec (Json.arr []) = none) :
    Response.values dec r = some [] := by
  simp [Response.values, Response.value, hd, h, decodeVec,
    List.mapM.loop]

/-- Witness for C4 at the repository's `\x7b "data": [] \x7d` test, with
the real `UserCompact` decoder: the empty array fails its three-field
positional form. -/
theorem values_empty_array_witness :
    Response.values decodeUserCompact ⟨Json.arr [], []⟩ = some [] :=
  values_empty_array decodeUserCompact ⟨Json.arr [], []⟩ rfl rfl

/-- C5: when `data` is a two-element array whose elements each decode as
`T` but the array itself does not decode as a single `T`,
`Response::values::<T>` returns the two decoded values in order. -/
theorem values_two_element_array {T : Type} (dec : Json → Option T)
    (r : Response) (a b : Json) (va vb : T)
    (hd : r.data = Json.arr [a, b]) (hs : dec r.data = none)
    (ha : dec a = some va) (hb : dec b = some vb) :
    Response.values dec r = some [va, vb] := by
  rw [hd] at hs
  simp [Response.values, Response.value, hs, hd, decodeVec, ha, hb,
    List.mapM.loop]

/-- Witness for C5 at the repository's two-user test payload. -/
theorem values_two_element_array_witness :
    Response.values decodeUserCompact ⟨Json.arr [gregJson, lukeJson], []⟩ =
      some [greg, luke] :=
  values_two_element_array decodeUserCompact
    ⟨Json.arr [gregJson, lukeJson], []⟩ gregJson lukeJson greg luke rfl
    rfl (by decide) (by decide)

/-- C6 counterexample: not every JSON text missing the `errors` key
parses into a `Response`.  A bare string fails, an object missing `data`
whose `errors` key is not an error array fails, and even an object
missing the `errors` key fails when its `data` field is duplicated
(serde's duplicate-field check). -/
theorem decodeResponse_not_total_without_errors_key :
    decodeResponse (Json.str "oops") = none ∧
      decodeResponse (Json.obj [("errors", Json.num 5)]) = none ∧
      decodeResponse
        (Json.obj [("data", Json.num 1), ("data", Json.num 2)]) = none :=
  ⟨rfl, rfl, rfl⟩

/-- With no `errors` entry and at most one `data` entry (counting one
already recorded in the accumulator), the `Response` map reader succeeds,
yielding the recorded or looked-up data value and no errors. -/
theorem readResponseFields_of_no_errors (fields : List (String × Json)) :
    ∀ d : Option Json, List.lookup "errors" fields = none →
      List.countP (fun kv => kv.1 == "data") fields +
          (if d.isSome then 1 else 0) ≤ 1 →
      readResponseFields fields d none =
        some ⟨(d.or (List.lookup "data" fields)).getD Json.null, []⟩ := by
  induction fields with
  | nil =>
    intro d _ _
    cases d <;> simp [readResponseFields, List.lookup]
  | cons kv rest ih =>
    obtain ⟨k, v⟩ := kv
    intro d he hc
    have hk_err : k ≠ "errors" := by
      intro h
      subst h
      simp [List.lookup] at he
    have he' : List.lookup "errors" rest = none := by
      rw [List.lookup] at he
      rw [beq_eq_false_iff_ne.mpr (Ne.symm hk_err)] at he
      exact he
    rw [List.countP_cons] at hc
    by_cases hk : k = "data"
    · subst hk
      cases d with
      | some dv => simp at hc
      | none =>
        have hc' : List.countP (fun kv => kv.1 == "data") rest + 1 ≤ 1 := by
          simpa using hc
        have hrec := ih (some v) he' (by simpa using hc')
        simpa [readResponseFields, List.lookup] using hrec
    · have h0 : (k == "data") = false := beq_eq_false_iff_ne.mpr hk
      have hc' : List.countP (fun kv => kv.1 == "data") rest +
          (if d.isSome then 1 else 0) ≤ 1 := by
        simpa [h0] using hc
      have hrec := ih d he' hc'
      rw [List.lookup, beq_eq_false_iff_ne.mpr (Ne.symm hk)]
      simpa [readResponseFields, hk, hk_err] using hrec

/-- When no `data` entry occurs and none was recorded, any `Response` the
map reader produces carries the default JSON null data. -/
theorem readResponseFields_data_null (fields : List (String × Json)) :
    ∀ e : Option (List Error), List.lookup "data" fields = none →
      ∀ r : Response, readResponseFields fields none e = some r →
        r.data = Json.null := by
  induction fields with
  | nil =>
    intro e _ r hr
    simp [readResponseFields] at hr
    simp [← hr]
  | cons kv rest ih =>
    obtain ⟨k, v⟩ := kv
    intro e hd r hr
    have hk_data : k ≠ "data" := by
      intro h
      subst h
      simp [List.lookup] at hd
    have hd' : List.lookup "data" rest = none := by
      rw [List.lookup] at hd
      rw [beq_eq_false_iff_ne.mpr (Ne.symm hk_data)] at hd
      exact hd
    by_cases hk : k = "errors"
    · subst hk
      cases e with
      | some es => simp [readResponseFields] at hr
      | none =>
        cases hdv : decodeVec decodeError v with
        | none => simp [readResponseFields, hdv] at hr
        | some es =>
          exact ih (some es) hd' r
            (by simpa [readResponseFields, hdv] using hr)
    · exact ih e hd' r
        (by simpa [readResponseFields, hk_data, hk] using hr)

/-- C6 (amended): for JSON object texts, a missing `errors` key is not a
failure as long as the `data` field is not duplicated — parsing succeeds,
`errors` defaults to the empty list and the error accessor returns `None`
— and whenever parsing an object text missing the `data` key succeeds,
`data` has defaulted to JSON null. -/
theorem decodeResponse_defaults (fields : List (String × Json)) :
    (List.lookup "errors" fields = none →
      List.countP (fun kv => kv.1 == "data") fields ≤ 1 →
      decodeResponse (Json.obj fields) =
          some ⟨(List.lookup "data" fields).getD Json.null, []⟩ ∧
        Response.getErrors
          ⟨(List.lookup "data" fields).getD Json.null, []⟩ = none) ∧
    (List.lookup "data" fields = none →
      ∀ r, decodeResponse (Json.obj fields) = some r →
        r.data = Json.null) := by
  constructor
  · intro he hc
    refine ⟨?_, by simp [Response.getErrors]⟩
    have hrr := readResponseFields_of_no_errors fields none he
      (by simpa using hc)
    simpa [decodeResponse, Option.none_or] using hrr
  · intro hd r hr
    exact readResponseFields_data_null fields none hd r
      (by simpa [decodeResponse] using hr)

/-- Witness for C6 (amended) at an object carrying only `data`. -/
theorem decodeResponse_defaults_witness :
    decodeResponse (Json.obj [("data", gregJson)]) =
        some ⟨gregJson, []⟩ ∧
      Response.getErrors ⟨gregJson, []⟩ = none :=
  (decodeResponse_defaults [("data", gregJson)]).1 rfl (by decide)

/-- C7: the error accessor returns the envelope's error list unchanged
when non-empty and `None` when empty; it never fails and its result does
not depend on `data`. -/
theorem getErrors_spec (r : Response) (d : Json) :
    (r.errors ≠ [] → Response.getErrors r = some r.errors) ∧
      (r.errors = [] → Response.getErrors r = none) ∧
      Response.getErrors ⟨d, r.errors⟩ = Response.getErrors r := by
  refine ⟨fun h => ?_, fun h => ?_, rfl⟩
  · simp [Response.getErrors, List.length_pos.mpr h]
  · simp [Response.getErrors, h]

/-- Witness for C7 at the test error response. -/
theorem getErrors_spec_witness :
    Response.getErrors ⟨Json.null, [sampleError]⟩ = some [sampleError] :=
  (getErrors_spec ⟨Json.null, [sampleError]⟩ Json.null).1 (by simp)

/-- Shallow embedding of the borrowing call `resp.value::<T>()` as state
passing: the receiver is an immutable borrow and the body only clones
`data`, so the call returns the result together with the envelope it
leaves behind. -/
def Response.valueCall {T : Type} (dec : Json → Option T) (r : Response) :
    Option T × Response :=
  (Response.value dec r, r)

/-- Shallow embedding of the borrowing call `resp.values::<T>()` as state
passing. -/
def Response.valuesCall {T : Type} (dec : Json → Option T)
    (r : Response) : Option (List T) × Response :=
  (Response.values dec r, r)

/-- Shallow embedding of the borrowing call `resp.errors()` as state
passing. -/
def Response.errorsCall (r : Response) : Option (List Error) × Response :=
  (Response.getErrors r, r)

/-- C8: the borrowing extraction calls leave the envelope's `data` and
`errors` fields unchanged, and a second call on the envelope left behind
by the first returns an equal result. -/
theorem borrowing_calls_frame {T : Type} (dec : Json → Option T)
    (r : Response) :
    ((Response.valueCall dec r).2.data = r.data ∧
      (Response.valueCall dec r).2.errors = r.errors ∧
      (Response.valueCall dec (Response.valueCall dec r).2).1 =
        (Response.valueCall dec r).1) ∧
    ((Response.valuesCall dec r).2.data = r.data ∧
      (Response.valuesCall dec r).2.errors = r.errors ∧
      (Response.valuesCall dec (Response.valuesCall dec r).2).1 =
        (Response.valuesCall dec r).1) ∧
    ((Response.errorsCall r).2.data = r.data ∧
      (Response.errorsCall r).2.errors = r.errors ∧
      (Response.errorsCall (Response.errorsCall r).2).1 =
        (Response.errorsCall r).1) :=
  ⟨⟨rfl, rfl, rfl⟩, ⟨rfl, rfl, rfl⟩, ⟨rfl, rfl, rfl⟩⟩

/-- C9: the borrowing accessors never consult the error list — even with
non-empty `errors`, a `data` that deserializes as `T` yields the present
value from `value` and the one-element vector from `values`. -/
theorem borrowing_ignores_errors {T : Type} (dec : Json → Option T)
    (r : Response) (v : T) (_he : r.errors ≠ [])
    (hd : dec r.data = some v) :
    Response.value dec r = some v ∧
      Response.values dec r = some [v] := by
  exact ⟨hd, by simp [Response.values, Response.value, hd]⟩

/-- Witness for C9: a user payload together with a reported error. -/
theorem borrowing_ignores_errors_witness :
    Response.value decodeUserCompact ⟨gregJson, [sampleError]⟩ =
        some greg ∧
      Response.values decodeUserCompact ⟨gregJson, [sampleError]⟩ =
        some [greg] :=
  borrowing_ignores_errors decodeUserCompact ⟨gregJson, [sampleError]⟩
    greg (by simp) (by decide)

/-- `BASE_URL` from `src/lib.rs`. -/
def BASE_URL : String := "https://app.asana.com"

/-- `api::API` from `src/api/mod.rs`: the HTTP client handle carries no
data relevant to token handling, so only the access token `pat` and the
working `url` are modelled. -/
structure API where
  pat : String
  url : String

/-- `API::from_token`: stores `String::from(token.as_ref())` (the token
verbatim) and the base URL. -/
def API.from_token (token : String) : API :=
  { pat := token, url := BASE_URL }

/-- `API::token`: returns the stored access token. -/
def API.token (a : API) : String := a.pat

/-- C10: constructing a client from a token and reading it back returns
exactly the string supplied. -/
theorem token_roundtrip (s : String) :
    API.token (API.from_token s) = s := rfl

end Asana
